import Mathlib

/-!
Verification of the MdToPdf page-splitting and layout-reconciliation engine.

The development shallowly embeds the pagination geometry and the generation
pipelines of the repository:

* `advancedGeneratePDF` (src/app/layout.tsx): slice-based paginator plus the
  capture-preparation / style-restoration protocol;
* `simpleGeneratePDF` (src/app/layout.tsx): the simpler variant;
* `generatePDF` (src/utils/pdfGenerator.ts): the overlap-based paginator with
  the save-fallback path.

Physical quantities (millimetres, pixel rows after JS float arithmetic) are
modelled as rationals; bitmap pixel dimensions returned by the rasterizer are
naturals.  Stateful browser interactions (style writes, waits, capture and
document-assembler calls) are modelled as an explicit event trace plus the
final inline-style state, so ordering and restoration claims are statements
about the trace.
-/

namespace MdToPdf

/-- Source row range of one page slice, in raster pixel rows. -/
structure SliceRange where
  yStart : ℚ
  yEnd : ℚ
  deriving DecidableEq, Repr

/-- Placement of one image on one PDF page: x, y offset and rendered size. -/
structure Placement where
  x : ℚ
  y : ℚ
  w : ℚ
  h : ℚ
  deriving DecidableEq, Repr

/-- One page of the slice-based paginator: the source row range, its height,
and the placed (re-encoded) image. From layout.tsx lines 880-924. -/
structure PageSlice where
  yStart : ℚ
  yEnd : ℚ
  sliceHeight : ℚ
  image : Placement
  deriving DecidableEq, Repr

/-- Scaled image height: `imgHeight = canvas.height * imgWidth / canvas.width`
(layout.tsx line 854, pdfGenerator.ts line 196). -/
def imgHeightOf (canvasW canvasH imgW : ℚ) : ℚ :=
  canvasH * imgW / canvasW

/-- Slice start row: `yStart = (pageNum * contentHeight * canvas.height) / imgHeight`
(layout.tsx line 881). -/
def sliceYStart (contentH canvasH imgH : ℚ) (page : ℕ) : ℚ :=
  (page : ℚ) * contentH * canvasH / imgH

/-- Slice end row:
`yEnd = min(yStart + contentHeight * canvas.height / imgHeight, canvas.height)`
(layout.tsx lines 882-885). -/
def sliceYEnd (contentH canvasH imgH : ℚ) (page : ℕ) : ℚ :=
  min (sliceYStart contentH canvasH imgH page + contentH * canvasH / imgH) canvasH

/-- Page count of the multi-page branch:
`totalPages = Math.ceil(imgHeight / contentHeight)` (layout.tsx line 869). -/
def totalPagesOf (imgH contentH : ℚ) : ℕ :=
  (⌈imgH / contentH⌉).toNat

/-- Row ranges of all slices produced by the multi-page loop of
`advancedGeneratePDF` (layout.tsx lines 872-886). -/
def sliceRanges (canvasW canvasH contentW contentH : ℚ) : List SliceRange :=
  (List.range (totalPagesOf (imgHeightOf canvasW canvasH contentW) contentH)).map
    fun p =>
      ⟨sliceYStart contentH canvasH (imgHeightOf canvasW canvasH contentW) p,
       sliceYEnd contentH canvasH (imgHeightOf canvasW canvasH contentW) p⟩

/-- Result of the slice-based paginator: either the single-page fast path or
the list of page slices. -/
inductive Paginate where
  | single (p : Placement)
  | multi (slices : List PageSlice)
  deriving DecidableEq, Repr

/-- The slice-based paginator of `advancedGeneratePDF` (layout.tsx lines
852-925), parameterised by the captured raster size and the page content
geometry.  The pipeline instantiates it with the A4 content area
(`contentW = 190`, `contentH = 277`, `margin = 10`). -/
def advancedPaginate (canvasW canvasH contentW contentH margin : ℚ) : Paginate :=
  let imgW := contentW
  let imgH := imgHeightOf canvasW canvasH imgW
  if imgH ≤ contentH then
    .single ⟨margin, margin, imgW, imgH⟩
  else
    .multi ((List.range (totalPagesOf imgH contentH)).map fun p =>
      let yS := sliceYStart contentH canvasH imgH p
      let yE := sliceYEnd contentH canvasH imgH p
      ⟨yS, yE, yE - yS, ⟨margin, margin, imgW, (yE - yS) * imgW / canvasW⟩⟩)

/-- Number of pages produced by the slice-based paginator. -/
def slicePageCount (canvasW canvasH contentW contentH : ℚ) : ℕ :=
  match advancedPaginate canvasW canvasH contentW contentH 0 with
  | .single _ => 1
  | .multi s => s.length

/-- The while loop of the overlap-based paginator
(pdfGenerator.ts lines 207-215): given `heightLeft` at the loop test, emit one
full-image placement at `yPosition = -(imgHeight - heightLeft) + margin` and
continue with `heightLeft - availableHeight`.  The source guard is
`heightLeft > 0`; the conjunct `0 < availH` is added for totality — at the
only call site `availableHeight = 267 > 0`, where both guards coincide. -/
def overlapLoop (imgW imgH availH margin hl : ℚ) : List Placement :=
  if hg : 0 < availH ∧ 0 < hl then
    ⟨margin, margin - (imgH - hl), imgW, imgH⟩ ::
      overlapLoop imgW imgH availH margin (hl - availH)
  else
    []
  termination_by (⌈hl / availH⌉).toNat
  decreasing_by
    have h1 : (hl - availH) / availH = hl / availH - 1 := by
      rw [sub_div, div_self (ne_of_gt hg.1)]
    have h2 : (1 : ℤ) ≤ ⌈hl / availH⌉ := by
      have := Int.ceil_pos.mpr (div_pos hg.2 hg.1)
      omega
    rw [h1, Int.ceil_sub_one]
    omega

/-- All image placements of the overlap-based paginator of `generatePDF`
(pdfGenerator.ts lines 198-215): the first page places the whole image at the
margin, then the while loop adds the remaining pages. -/
def overlapPlacements (imgW imgH availH margin : ℚ) : List Placement :=
  ⟨margin, margin, imgW, imgH⟩ :: overlapLoop imgW imgH availH margin (imgH - availH)

/-- Model of the JavaScript `String.prototype.trim` used by the
`!element.textContent?.trim()` validations: strip leading and trailing
whitespace. -/
def jsTrim (s : String) : String :=
  String.mk (((s.data.dropWhile Char.isWhitespace).reverse.dropWhile
    Char.isWhitespace).reverse)

/-- Inline style snapshot of the source element: the three properties the
pipelines override (`overflow`, `height`, `max-height`). -/
structure ElemStyles where
  overflow : String
  height : String
  maxHeight : String
  deriving DecidableEq, Repr

/-- Inline style snapshot of the parent element: the two properties
`advancedGeneratePDF` overrides. -/
structure ParentStyles where
  overflow : String
  height : String
  deriving DecidableEq, Repr

/-- The source element as the layout.tsx pipelines observe it: its text
content, its inline styles, and its parent element (if attached). -/
structure Elem where
  textContent : String
  styles : ElemStyles
  parent : Option ParentStyles
  deriving DecidableEq, Repr

/-- Behaviour of the external rasterizer on this run: either the
`html2canvas` call throws, or it returns a bitmap of the given pixel size. -/
inductive CaptureOutcome where
  | throws
  | bitmap (width height : ℕ)
  deriving DecidableEq, Repr

/-- External behaviour driving one run of `advancedGeneratePDF` or
`simpleGeneratePDF`: what the rasterizer does and whether `pdf.save` throws. -/
structure Env where
  capture : CaptureOutcome
  saveThrows : Bool
  deriving DecidableEq, Repr

/-- Failure classes of the pipelines.  `noContent` is the "Element has no
content" / "no content to capture" input error, `nullParent` the TypeError
raised by dereferencing `element.parentElement!` when it is null,
`captureThrew` an error thrown by the rasterizer itself, `emptyCanvas` the
zero-dimension-bitmap capture error, `notVisible` the visibility error of
`generatePDF`, `encodingFailed` its degenerate-image-data error, and
`saveFailed` an error thrown by `pdf.save`. -/
inductive PdfError where
  | noContent
  | nullParent
  | notVisible
  | captureThrew
  | emptyCanvas
  | encodingFailed
  | saveFailed
  deriving DecidableEq, Repr

/-- Observable side effects of a run, in program order: progress callbacks,
inline style writes, suspension points, the rasterizer call, slice bitmap
extraction, document-assembler calls, and the blob-download fallback. -/
inductive Event where
  | progress (msg : String)
  | setElemStyle (prop val : String)
  | setParentStyle (prop val : String)
  | frameYield
  | settleDelay (ms : ℕ)
  | scrollToTop
  | fontsWait
  | imagesWait
  | captureCall
  | drawSlice (yStart yEnd : ℚ)
  | addPage
  | addImage (x y w h : ℚ)
  | saveCall
  | blobFallback
  deriving DecidableEq, Repr

/-- Whether an event writes an inline style. -/
def Event.isStyleWrite : Event → Bool
  | .setElemStyle _ _ => true
  | .setParentStyle _ _ => true
  | _ => false

/-- Whether an event contributes to the geometry of the output document
(a page break, an image placement, or a slice extraction). -/
def Event.isGeom : Event → Bool
  | .drawSlice _ _ => true
  | .addPage => true
  | .addImage _ _ _ _ => true
  | _ => false

/-- Style values `advancedGeneratePDF` writes on the element to disable
clipping (layout.tsx lines 793-795). -/
def overriddenElemStyles : ElemStyles := ⟨"visible", "auto", "none"⟩

/-- Style values `advancedGeneratePDF` writes on the parent
(layout.tsx lines 796-797). -/
def overriddenParentStyles : ParentStyles := ⟨"visible", "auto"⟩

/-- The five style writes that disable clipping (layout.tsx lines 793-797). -/
def advMutationEvents : List Event :=
  [.setElemStyle "overflow" "visible", .setElemStyle "height" "auto",
   .setElemStyle "maxHeight" "none",
   .setParentStyle "overflow" "visible", .setParentStyle "height" "auto"]

/-- The five style writes that restore the snapshot after capture
(layout.tsx lines 824-828). -/
def advRestoreEvents (s : ElemStyles) (p : ParentStyles) : List Event :=
  [.setElemStyle "overflow" s.overflow, .setElemStyle "height" s.height,
   .setElemStyle "maxHeight" s.maxHeight,
   .setParentStyle "overflow" p.overflow, .setParentStyle "height" p.height]

/-- Page-building events of `advancedGeneratePDF` (layout.tsx lines 835-927),
rendered from the slice-based paginator at the A4 geometry the code derives:
`contentWidth = 190`, `contentHeight = 277`, `margin = 10`. -/
def advancedPageEvents (w h : ℕ) : List Event :=
  match advancedPaginate (w : ℚ) (h : ℚ) 190 277 10 with
  | .single pl => [.addImage pl.x pl.y pl.w pl.h, .progress "PDF created successfully!"]
  | .multi slices =>
      (slices.enum.map fun pair =>
        [Event.progress ("Creating page " ++ toString (pair.1 + 1) ++ " of " ++
          toString slices.length ++ "...")]
        ++ (if pair.1 > 0 then [Event.addPage] else [])
        ++ [Event.drawSlice pair.2.yStart pair.2.yEnd,
            Event.addImage pair.2.image.x pair.2.image.y pair.2.image.w
              pair.2.image.h]).flatten
      ++ [.progress ("PDF created with " ++ toString slices.length ++ " pages!")]

/-- Result of one `advancedGeneratePDF` run: the outcome (`none` = returned
normally, `some err` = the error propagated to the caller), the final inline
styles of the element and of its parent, and the event trace. -/
structure AdvResult where
  outcome : Option PdfError
  elemStyles : ElemStyles
  parentStyles : Option ParentStyles
  events : List Event
  deriving DecidableEq, Repr

/-- One run of `advancedGeneratePDF` (layout.tsx lines 763-936).  The
progress callback fires first (line 769); the no-content validation throws
before the try block (lines 776-778); `element.parentElement!` is
dereferenced before any style write (lines 783-790), so a detached element
fails there; the style overrides, the two frame yields with their 200 ms
settle delays, and the capture follow; styles are restored immediately after
capture (lines 823-828) — but not when the capture call itself throws, since
there is no finally block and the catch just rethrows (lines 932-935); the
zero-dimension check runs after restoration; page building and `pdf.save`
follow, and a save error also propagates through the rethrowing catch. -/
def advancedRun (env : Env) (e : Elem) : AdvResult :=
  if (jsTrim e.textContent).isEmpty then
    ⟨some .noContent, e.styles, e.parent, [.progress "Preparing content..."]⟩
  else
    match e.parent with
    | none => ⟨some .nullParent, e.styles, none, [.progress "Preparing content..."]⟩
    | some p =>
      let ev1 := Event.progress "Preparing content..." :: advMutationEvents ++
        [Event.frameYield, Event.settleDelay 200, Event.frameYield,
         Event.settleDelay 200, Event.progress "Capturing content...",
         Event.captureCall]
      match env.capture with
      | .throws =>
          ⟨some .captureThrew, overriddenElemStyles, some overriddenParentStyles, ev1⟩
      | .bitmap w h =>
        let ev2 := ev1 ++ advRestoreEvents e.styles p
        if w = 0 ∨ h = 0 then
          ⟨some .emptyCanvas, e.styles, some p, ev2⟩
        else
          let ev3 := ev2 ++ Event.progress "Creating PDF..." ::
            advancedPageEvents w h ++ [Event.saveCall]
          if env.saveThrows then
            ⟨some .saveFailed, e.styles, some p, ev3⟩
          else
            ⟨none, e.styles, some p, ev3⟩

/-- Result of one `simpleGeneratePDF` run. -/
structure SimpleResult where
  outcome : Option PdfError
  elemStyles : ElemStyles
  events : List Event
  deriving DecidableEq, Repr

/-- Page-building events of `simpleGeneratePDF` (layout.tsx lines 1013-1106):
A4 with `margin = 15`, so `contentWidth = 180` and `contentHeight = 267`;
`imgHeight = imgWidth / (canvas.width / canvas.height)`; the multi-page loop
clamps `sourceHeight` by the remaining rows and the placed height by the
content height. -/
def simplePageEvents (w h : ℕ) : List Event :=
  let canvasW : ℚ := w
  let canvasH : ℚ := h
  let imgW : ℚ := 180
  let imgH := imgW / (canvasW / canvasH)
  if imgH ≤ 267 then
    [.addImage 15 15 imgW imgH]
  else
    ((List.range (totalPagesOf imgH 267)).map fun page =>
      (if page > 0 then [Event.addPage] else []) ++
      (let sourceY := sliceYStart 267 canvasH imgH page
       let sourceHeight := min (267 * canvasH / imgH) (canvasH - sourceY)
       [Event.drawSlice sourceY (sourceY + sourceHeight),
        Event.addImage 15 15 imgW (min 267 (sourceHeight * imgW / canvasW))])).flatten

/-- One run of `simpleGeneratePDF` (layout.tsx lines 949-1115): same
validation as `advancedRun`, but only the element's own styles are overridden
(lines 974-981), with one frame yield and a 100 ms delay; restoration again
happens only after a successful capture, and the catch rethrows. -/
def simpleRun (env : Env) (e : Elem) : SimpleResult :=
  if (jsTrim e.textContent).isEmpty then
    ⟨some .noContent, e.styles, []⟩
  else
    let ev1 := [Event.setElemStyle "overflow" "visible",
      Event.setElemStyle "height" "auto", Event.setElemStyle "maxHeight" "none",
      Event.frameYield, Event.settleDelay 100, Event.captureCall]
    match env.capture with
    | .throws => ⟨some .captureThrew, overriddenElemStyles, ev1⟩
    | .bitmap w h =>
      let ev2 := ev1 ++ [Event.setElemStyle "overflow" e.styles.overflow,
        Event.setElemStyle "height" e.styles.height,
        Event.setElemStyle "maxHeight" e.styles.maxHeight]
      if w = 0 ∨ h = 0 then
        ⟨some .emptyCanvas, e.styles, ev2⟩
      else
        let ev3 := ev2 ++ simplePageEvents w h ++ [Event.saveCall]
        if env.saveThrows then
          ⟨some .saveFailed, e.styles, ev3⟩
        else
          ⟨none, e.styles, ev3⟩

/-- The source element as `generatePDF` (pdfGenerator.ts) observes it:
`debugElement` checks `textContent.length > 0` (not trimmed) and
`offsetParent !== null`; the image-load wait only happens when descendant
images exist. -/
structure GenElem where
  textContent : String
  offsetParentPresent : Bool
  images : ℕ
  deriving DecidableEq, Repr

/-- External behaviour driving one `generatePDF` run: the rasterizer
outcome, the length of the encoded image data string, and whether `pdf.save`
throws. -/
structure GenEnv where
  capture : CaptureOutcome
  imgDataLen : ℕ
  saveThrows : Bool
  deriving DecidableEq, Repr

/-- Result of one `generatePDF` run.  `generatePDF` mutates no styles, so
only the outcome and the trace are observable. -/
structure GenResult where
  outcome : Option PdfError
  events : List Event
  deriving DecidableEq, Repr

/-- Events of `prepareElementForCapture` (pdfGenerator.ts lines 36-65):
scroll to top, two frame yields, the font wait, the image-load wait when
images exist, and the fixed 500 ms settle delay. -/
def genPrepEvents (images : ℕ) : List Event :=
  [.scrollToTop, .frameYield, .frameYield, .fontsWait] ++
  (if images > 0 then [Event.imagesWait] else []) ++ [.settleDelay 500]

/-- Page-building events of `generatePDF` (pdfGenerator.ts lines 195-215):
the first page places the full image at the margin, then the while loop
places the same full image shifted upward on each further page.  A4 with
`margin = 15`: `availableWidth = 180`, `availableHeight = 267`. -/
def genPageEvents (w h : ℕ) : List Event :=
  let imgW : ℚ := 180
  let imgH := imgHeightOf (w : ℚ) (h : ℚ) imgW
  Event.addImage 15 15 imgW imgH ::
    ((overlapLoop imgW imgH 267 15 (imgH - 267)).enum.map fun pair =>
      [Event.progress ("Creating page " ++ toString (pair.1 + 2) ++ "..."),
       Event.addPage, Event.addImage pair.2.x pair.2.y pair.2.w pair.2.h]).flatten

/-- One run of `generatePDF` (pdfGenerator.ts lines 79-260).  The whole body
is inside the try: preparation runs before the content/visibility checks of
`debugElement`; a zero-dimension bitmap and degenerate image data are
rejected before the PDF is assembled; the primary `pdf.save` has its own
try/catch whose catch runs the blob-download fallback and does not rethrow,
so a save error never reaches the caller; the outer catch rethrows every
other error (possibly rewrapped) to the caller. -/
def generatePdfRun (env : GenEnv) (e : GenElem) : GenResult :=
  let prep := Event.progress "Preparing content for PDF..." :: genPrepEvents e.images
  if e.textContent.length = 0 then
    ⟨some .noContent, prep⟩
  else if e.offsetParentPresent = false then
    ⟨some .notVisible, prep⟩
  else
    let ev1 := prep ++ [Event.progress "Capturing content...", Event.captureCall]
    match env.capture with
    | .throws => ⟨some .captureThrew, ev1⟩
    | .bitmap w h =>
      if w = 0 ∨ h = 0 then
        ⟨some .emptyCanvas, ev1⟩
      else if env.imgDataLen < 100 then
        ⟨some .encodingFailed, ev1⟩
      else
        let ev2 := ev1 ++ Event.progress "Creating PDF..." :: genPageEvents w h ++
          [Event.progress "Saving PDF...", Event.saveCall]
        if env.saveThrows then
          ⟨none, ev2 ++ [Event.blobFallback, Event.progress "PDF generated successfully!"]⟩
        else
          ⟨none, ev2 ++ [Event.progress "PDF generated successfully!"]⟩

/-! ## Helper lemmas on the slice geometry -/

lemma yStart_as_mul {cH ctH imgH : ℚ} (p : ℕ) :
    sliceYStart ctH cH imgH p = (p : ℚ) * (ctH * cH / imgH) := by
  rw [sliceYStart, mul_assoc, mul_div_assoc]

lemma yStart_add {cH ctH imgH : ℚ} (p : ℕ) :
    sliceYStart ctH cH imgH p + ctH * cH / imgH = sliceYStart ctH cH imgH (p + 1) := by
  rw [yStart_as_mul, yStart_as_mul]
  push_cast
  ring

lemma yStart_zero {cH ctH imgH : ℚ} : sliceYStart ctH cH imgH 0 = 0 := by
  simp [sliceYStart]

lemma ceil_cast_eq {ctH imgH : ℚ} (hctH : 0 < ctH) (hlt : ctH < imgH) :
    ((totalPagesOf imgH ctH : ℕ) : ℚ) = ((⌈imgH / ctH⌉ : ℤ) : ℚ) := by
  rw [totalPagesOf]
  have h0 : (0 : ℤ) ≤ ⌈imgH / ctH⌉ :=
    le_of_lt (Int.ceil_pos.mpr (div_pos (lt_trans hctH hlt) hctH))
  exact_mod_cast congrArg (fun z : ℤ => (z : ℚ)) (Int.toNat_of_nonneg h0)

lemma xK_eq {cH ctH imgH : ℚ} (hctH : 0 < ctH) (himgH : 0 < imgH) :
    imgH / ctH * (ctH * cH / imgH) = cH := by
  field_simp
  ring

lemma two_le_pages {ctH imgH : ℚ} (hctH : 0 < ctH) (hlt : ctH < imgH) :
    2 ≤ totalPagesOf imgH ctH := by
  have hx : (1 : ℚ) < imgH / ctH := (one_lt_div hctH).mpr hlt
  have h1 : (1 : ℤ) < ⌈imgH / ctH⌉ := Int.lt_ceil.mpr (by exact_mod_cast hx)
  rw [totalPagesOf]
  omega

lemma cast_pages_ge {ctH imgH : ℚ} (hctH : 0 < ctH) (hlt : ctH < imgH) :
    imgH / ctH ≤ ((totalPagesOf imgH ctH : ℕ) : ℚ) := by
  rw [ceil_cast_eq hctH hlt]
  exact Int.le_ceil _

lemma slices_contiguous {cH ctH imgH : ℚ} (hcH : 0 < cH) (hctH : 0 < ctH)
    (hlt : ctH < imgH) (p : ℕ) (hp : p + 1 < totalPagesOf imgH ctH) :
    sliceYEnd ctH cH imgH p = sliceYStart ctH cH imgH (p + 1) := by
  have himgH : 0 < imgH := lt_trans hctH hlt
  have hK : 0 < ctH * cH / imgH := by positivity
  have hle : sliceYStart ctH cH imgH (p + 1) ≤ cH := by
    rw [yStart_as_mul]
    have hcast : ((p : ℚ) + 1) ≤ ((totalPagesOf imgH ctH : ℕ) : ℚ) - 1 := by
      have h1 : (p : ℕ) + 1 + 1 ≤ totalPagesOf imgH ctH := hp
      have h2 := Nat.cast_le (α := ℚ).mpr h1
      push_cast at h2 ⊢
      linarith
    have hlt2 : ((totalPagesOf imgH ctH : ℕ) : ℚ) - 1 < imgH / ctH := by
      rw [ceil_cast_eq hctH hlt]
      have := Int.ceil_lt_add_one (imgH / ctH)
      push_cast at this ⊢
      linarith
    have h3 : ((p : ℚ) + 1) < imgH / ctH := lt_of_le_of_lt hcast hlt2
    calc ((p + 1 : ℕ) : ℚ) * (ctH * cH / imgH)
        ≤ imgH / ctH * (ctH * cH / imgH) := by
          push_cast
          exact le_of_lt (mul_lt_mul_of_pos_right h3 hK)
      _ = cH := xK_eq hctH himgH
  rw [sliceYEnd, yStart_add, min_eq_left hle]

lemma last_slice_ends_at_height {cH ctH imgH : ℚ} (hcH : 0 < cH) (hctH : 0 < ctH)
    (hlt : ctH < imgH) :
    sliceYEnd ctH cH imgH (totalPagesOf imgH ctH - 1) = cH := by
  have himgH : 0 < imgH := lt_trans hctH hlt
  have hK : 0 < ctH * cH / imgH := by positivity
  have hn2 := two_le_pages hctH hlt
  have hsub : totalPagesOf imgH ctH - 1 + 1 = totalPagesOf imgH ctH := by omega
  rw [sliceYEnd, yStart_add, hsub]
  have hge : cH ≤ sliceYStart ctH cH imgH (totalPagesOf imgH ctH) := by
    rw [yStart_as_mul]
    calc cH = imgH / ctH * (ctH * cH / imgH) := (xK_eq hctH himgH).symm
      _ ≤ ((totalPagesOf imgH ctH : ℕ) : ℚ) * (ctH * cH / imgH) :=
          mul_le_mul_of_nonneg_right (cast_pages_ge hctH hlt) (le_of_lt hK)
  exact min_eq_right hge

lemma slice_nonempty {cH ctH imgH : ℚ} (hcH : 0 < cH) (hctH : 0 < ctH)
    (hlt : ctH < imgH) (p : ℕ) (hp : p < totalPagesOf imgH ctH) :
    sliceYStart ctH cH imgH p < sliceYEnd ctH cH imgH p := by
  have himgH : 0 < imgH := lt_trans hctH hlt
  have hK : 0 < ctH * cH / imgH := by positivity
  rw [sliceYEnd]
  apply lt_min
  · linarith
  · rw [yStart_as_mul]
    have hcast : ((p : ℕ) : ℚ) ≤ ((totalPagesOf imgH ctH : ℕ) : ℚ) - 1 := by
      have h2 := Nat.cast_le (α := ℚ).mpr hp
      push_cast at h2 ⊢
      linarith
    have hlt2 : ((totalPagesOf imgH ctH : ℕ) : ℚ) - 1 < imgH / ctH := by
      rw [ceil_cast_eq hctH hlt]
      have := Int.ceil_lt_add_one (imgH / ctH)
      push_cast at this ⊢
      linarith
    calc ((p : ℕ) : ℚ) * (ctH * cH / imgH)
        < imgH / ctH * (ctH * cH / imgH) :=
          mul_lt_mul_of_pos_right (lt_of_le_of_lt hcast hlt2) hK
      _ = cH := xK_eq hctH himgH

lemma sliceRanges_length (canvasW canvasH contentW contentH : ℚ) :
    (sliceRanges canvasW canvasH contentW contentH).length =
      totalPagesOf (imgHeightOf canvasW canvasH contentW) contentH := by
  simp [sliceRanges]

lemma imgHeightOf_example : imgHeightOf 800 3000 180 = 675 := by
  norm_num [imgHeightOf]

lemma totalPagesOf_example : totalPagesOf 675 270 = 3 := by
  rw [totalPagesOf, show ⌈(675 : ℚ) / 270⌉ = 3 by rw [Int.ceil_eq_iff] ; norm_num]
  rfl

lemma sliceRanges_example :
    sliceRanges 800 3000 180 270 = [⟨0, 1200⟩, ⟨1200, 2400⟩, ⟨2400, 3000⟩] := by
  rw [sliceRanges, imgHeightOf_example, totalPagesOf_example]
  simp [List.range_succ, sliceYStart, sliceYEnd]
  norm_num

lemma overlapLoop_closed (imgW imgH margin : ℚ) {availH : ℚ} (hA : 0 < availH) :
    ∀ (n : ℕ) (hl : ℚ), (⌈hl / availH⌉).toNat = n →
      overlapLoop imgW imgH availH margin hl =
        (List.range n).map
          (fun i => ⟨margin, margin - (imgH - hl) - (i : ℚ) * availH, imgW, imgH⟩) := by
  intro n
  induction n with
  | zero =>
    intro hl h0
    have hhl : ¬ 0 < hl := by
      intro hpos
      have := Int.ceil_pos.mpr (div_pos hpos hA)
      omega
    rw [overlapLoop, dif_neg (by tauto)]
    simp
  | succ m ih =>
    intro hl hm
    have hceil : 0 < ⌈hl / availH⌉ := by omega
    have hdiv : 0 < hl / availH := Int.ceil_pos.mp hceil
    have hhl : 0 < hl := by
      have := mul_pos hdiv hA
      rwa [div_mul_cancel₀ _ (ne_of_gt hA)] at this
    have hstep : (hl - availH) / availH = hl / availH - 1 := by
      rw [sub_div, div_self (ne_of_gt hA)]
    have hm' : (⌈(hl - availH) / availH⌉).toNat = m := by
      rw [hstep, Int.ceil_sub_one]
      omega
    rw [overlapLoop, dif_pos ⟨hA, hhl⟩, ih _ hm', List.range_succ_eq_map]
    simp only [List.map_cons, List.map_map]
    refine List.cons_eq_cons.mpr ⟨by norm_num, ?_⟩
    apply List.map_congr_left
    intro i _
    simp only [Function.comp_apply]
    congr 1
    push_cast
    ring

lemma overlapPlacements_closed (imgW margin : ℚ) {imgH availH : ℚ}
    (hA : 0 < availH) (hI : 0 < imgH) :
    overlapPlacements imgW imgH availH margin =
      (List.range (⌈imgH / availH⌉).toNat).map
        (fun i => ⟨margin, margin - (i : ℚ) * availH, imgW, imgH⟩) := by
  have hceil : 0 < ⌈imgH / availH⌉ := Int.ceil_pos.mpr (div_pos hI hA)
  have hstep : (imgH - availH) / availH = imgH / availH - 1 := by
    rw [sub_div, div_self (ne_of_gt hA)]
  have hm : (⌈(imgH - availH) / availH⌉).toNat = (⌈imgH / availH⌉).toNat - 1 := by
    rw [hstep, Int.ceil_sub_one]
    omega
  have hn : (⌈imgH / availH⌉).toNat = ((⌈imgH / availH⌉).toNat - 1) + 1 := by omega
  rw [overlapPlacements, overlapLoop_closed imgW imgH margin hA _ _ hm, hn,
    List.range_succ_eq_map]
  simp only [List.map_cons, List.map_map]
  refine List.cons_eq_cons.mpr ⟨by norm_num, ?_⟩
  apply List.map_congr_left
  intro i _
  simp only [Function.comp_apply]
  congr 1
  push_cast
  ring

lemma slicePageCount_eq (canvasW canvasH contentW contentH : ℚ) :
    slicePageCount canvasW canvasH contentW contentH =
      if imgHeightOf canvasW canvasH contentW ≤ contentH then 1
      else totalPagesOf (imgHeightOf canvasW canvasH contentW) contentH := by
  by_cases h : imgHeightOf canvasW canvasH contentW ≤ contentH
  · rw [slicePageCount, advancedPaginate, if_pos h, if_pos h]
  · rw [slicePageCount, advancedPaginate, if_neg h, if_neg h]
    simp

/-! ## Claims -/

/-- Claim C1: for every captured raster with positive dimensions whose scaled
image height `imgH = canvasH * contentW / canvasW` exceeds the page content
height `contentH`, the slice-based paginator of `advancedGeneratePDF`
produces exactly `ceil(imgH / contentH)` pages; page `p` covers source rows
`[yStart p, yEnd p)` with `yStart 0 = 0`, `yEnd p = yStart (p+1)` for every
non-final page (contiguous, non-overlapping), every slice non-empty, and the
last end row equal to `canvasH`, so the union covers `[0, canvasH)` exactly
once; and concretely `canvasW = 800`, `canvasH = 3000`, `contentW = 180`,
`contentH = 270` yields three pages with row ranges `[0,1200)`, `[1200,2400)`,
`[2400,3000)`. -/
theorem claim_C1_slice_coverage :
    (∀ canvasW canvasH contentW contentH : ℚ,
      0 < canvasW → 0 < canvasH → 0 < contentW → 0 < contentH →
      contentH < imgHeightOf canvasW canvasH contentW →
      (sliceRanges canvasW canvasH contentW contentH).length =
        (⌈imgHeightOf canvasW canvasH contentW / contentH⌉).toNat ∧
      sliceYStart contentH canvasH (imgHeightOf canvasW canvasH contentW) 0 = 0 ∧
      (∀ p : ℕ,
        p + 1 < totalPagesOf (imgHeightOf canvasW canvasH contentW) contentH →
        sliceYEnd contentH canvasH (imgHeightOf canvasW canvasH contentW) p =
          sliceYStart contentH canvasH (imgHeightOf canvasW canvasH contentW) (p + 1)) ∧
      (∀ p : ℕ,
        p < totalPagesOf (imgHeightOf canvasW canvasH contentW) contentH →
        sliceYStart contentH canvasH (imgHeightOf canvasW canvasH contentW) p <
          sliceYEnd contentH canvasH (imgHeightOf canvasW canvasH contentW) p) ∧
      sliceYEnd contentH canvasH (imgHeightOf canvasW canvasH contentW)
        (totalPagesOf (imgHeightOf canvasW canvasH contentW) contentH - 1) = canvasH) ∧
    sliceRanges 800 3000 180 270 = [⟨0, 1200⟩, ⟨1200, 2400⟩, ⟨2400, 3000⟩] := by
  refine ⟨?_, sliceRanges_example⟩
  intro canvasW canvasH contentW contentH hcW hcH hctW hctH hlt
  refine ⟨?_, yStart_zero, ?_, ?_, ?_⟩
  · rw [sliceRanges_length, totalPagesOf]
  · intro p hp
    exact slices_contiguous hcH hctH hlt p hp
  · intro p hp
    exact slice_nonempty hcH hctH hlt p hp
  · exact last_slice_ends_at_height hcH hctH hlt

/-- Witness for C1 at the spec's example raster: 800 by 3000 pixels against a
180 by 270 content area gives three pages whose first two slice boundaries
meet at row 1200. -/
theorem claim_C1_slice_coverage_witness :
    (sliceRanges 800 3000 180 270).length =
      (⌈imgHeightOf 800 3000 180 / 270⌉).toNat ∧
    sliceYEnd 270 3000 (imgHeightOf 800 3000 180) 0 =
      sliceYStart 270 3000 (imgHeightOf 800 3000 180) 1 := by
  have h := claim_C1_slice_coverage.1 800 3000 180 270 (by norm_num) (by norm_num)
    (by norm_num) (by norm_num) (by rw [imgHeightOf_example] ; norm_num)
  refine ⟨h.1, h.2.2.1 0 ?_⟩
  rw [imgHeightOf_example, totalPagesOf_example]
  norm_num

/-- Claim C4: every slice end row produced by the slice-based paginator is
clamped by `min` to the raster height, so no slice reads rows past
`canvasH` (and with non-negative inputs none before row 0), and the number of
emitted pages is exactly `ceil(imgH / contentH)` — never an extra page. -/
theorem claim_C4_no_overshoot :
    (∀ canvasW canvasH contentW contentH : ℚ,
      (∀ r ∈ sliceRanges canvasW canvasH contentW contentH, r.yEnd ≤ canvasH) ∧
      (sliceRanges canvasW canvasH contentW contentH).length =
        (⌈imgHeightOf canvasW canvasH contentW / contentH⌉).toNat) ∧
    (∀ canvasW canvasH contentW contentH : ℚ,
      0 ≤ canvasW → 0 ≤ canvasH → 0 ≤ contentW → 0 ≤ contentH →
      ∀ r ∈ sliceRanges canvasW canvasH contentW contentH, 0 ≤ r.yStart) := by
  constructor
  · intro canvasW canvasH contentW contentH
    constructor
    · intro r hr
      rw [sliceRanges] at hr
      obtain ⟨p, _, rfl⟩ := List.mem_map.mp hr
      exact min_le_right _ _
    · rw [sliceRanges_length, totalPagesOf]
  · intro canvasW canvasH contentW contentH hcW hcH hctW hctH r hr
    rw [sliceRanges] at hr
    obtain ⟨p, _, rfl⟩ := List.mem_map.mp hr
    show 0 ≤ sliceYStart contentH canvasH (imgHeightOf canvasW canvasH contentW) p
    rw [sliceYStart, imgHeightOf]
    positivity

/-- Witness for C4 at the example raster: the final slice `[2400, 3000)` is a
member of the computed ranges, ends exactly at the raster height 3000, and
starts at a non-negative row. -/
theorem claim_C4_no_overshoot_witness :
    (⟨2400, 3000⟩ : SliceRange) ∈ sliceRanges 800 3000 180 270 ∧
    (3000 : ℚ) ≤ 3000 ∧ (0 : ℚ) ≤ 2400 := by
  have hmem : (⟨2400, 3000⟩ : SliceRange) ∈ sliceRanges 800 3000 180 270 := by
    rw [sliceRanges_example]
    simp
  refine ⟨hmem, (claim_C4_no_overshoot.1 800 3000 180 270).1 _ hmem, ?_⟩
  exact (claim_C4_no_overshoot.2 800 3000 180 270 (by norm_num) (by norm_num)
    (by norm_num) (by norm_num) _ hmem)

/-- Claim C5: whenever the scaled image height is at most the content height,
the slice-based paginator takes the single-page fast path — one page holding
the whole raster at the margin offset — and the slicing branch is never
taken; concretely an 800 by 1000 raster with a 180 by 270 content area gives
`imgH = 225 ≤ 270` and a single page. -/
theorem claim_C5_single_page_fast_path :
    (∀ canvasW canvasH contentW contentH margin : ℚ,
      imgHeightOf canvasW canvasH contentW ≤ contentH →
      advancedPaginate canvasW canvasH contentW contentH margin =
        .single ⟨margin, margin, contentW, imgHeightOf canvasW canvasH contentW⟩ ∧
      (∀ slices, advancedPaginate canvasW canvasH contentW contentH margin ≠
        Paginate.multi slices)) ∧
    advancedPaginate 800 1000 180 270 10 = .single ⟨10, 10, 180, 225⟩ := by
  constructor
  · intro canvasW canvasH contentW contentH margin hle
    constructor
    · rw [advancedPaginate, if_pos hle]
    · intro slices
      rw [advancedPaginate, if_pos hle]
      exact fun hc => Paginate.noConfusion hc
  · have h1 : imgHeightOf 800 1000 180 = 225 := by norm_num [imgHeightOf]
    rw [advancedPaginate, h1]
    norm_num

/-- Witness for C5 at the spec's example: the 800 by 1000 raster satisfies the
fast-path hypothesis and produces the single page. -/
theorem claim_C5_single_page_fast_path_witness :
    advancedPaginate 800 1000 180 270 15 =
      .single ⟨15, 15, 180, imgHeightOf 800 1000 180⟩ := by
  exact (claim_C5_single_page_fast_path.1 800 1000 180 270 15
    (by norm_num [imgHeightOf])).1

/-- Claim C6: for positive geometry, the overlap-based paginator of
`generatePDF` emits the same number of pages as the slice-based paginator,
namely `ceil(imgH / contentH)` with at least one page even when
`imgH ≤ contentH`; every page holds the entire unsliced image (width `imgW`,
height `imgH`), page `i` (0-based) placed at vertical offset
`margin - i * contentH`, so page 0 sits at the margin and every later page is
the whole image shifted up by the accumulated consumed height. -/
theorem claim_C6_overlap_refinement :
    ∀ canvasW canvasH contentW contentH margin : ℚ,
      0 < canvasW → 0 < canvasH → 0 < contentW → 0 < contentH →
      (overlapPlacements contentW (imgHeightOf canvasW canvasH contentW)
          contentH margin).length =
        slicePageCount canvasW canvasH contentW contentH ∧
      (overlapPlacements contentW (imgHeightOf canvasW canvasH contentW)
          contentH margin).length =
        (⌈imgHeightOf canvasW canvasH contentW / contentH⌉).toNat ∧
      1 ≤ (overlapPlacements contentW (imgHeightOf canvasW canvasH contentW)
          contentH margin).length ∧
      (∀ (i : ℕ) (hi : i < (overlapPlacements contentW
          (imgHeightOf canvasW canvasH contentW) contentH margin).length),
        (overlapPlacements contentW (imgHeightOf canvasW canvasH contentW)
            contentH margin).get ⟨i, hi⟩ =
          ⟨margin, margin - (i : ℚ) * contentH, contentW,
            imgHeightOf canvasW canvasH contentW⟩) := by
  intro canvasW canvasH contentW contentH margin hcW hcH hctW hctH
  have hI : 0 < imgHeightOf canvasW canvasH contentW := by
    rw [imgHeightOf]
    positivity
  have hcl := overlapPlacements_closed contentW margin hctH hI
  have hceil : 0 < ⌈imgHeightOf canvasW canvasH contentW / contentH⌉ :=
    Int.ceil_pos.mpr (div_pos hI hctH)
  have hlen : (overlapPlacements contentW (imgHeightOf canvasW canvasH contentW)
      contentH margin).length =
      (⌈imgHeightOf canvasW canvasH contentW / contentH⌉).toNat := by
    rw [hcl]
    simp
  refine ⟨?_, hlen, ?_, ?_⟩
  · rw [hlen, slicePageCount_eq]
    by_cases h : imgHeightOf canvasW canvasH contentW ≤ contentH
    · rw [if_pos h]
      have h1 : ⌈imgHeightOf canvasW canvasH contentW / contentH⌉ = 1 := by
        have hle : imgHeightOf canvasW canvasH contentW / contentH ≤ 1 :=
          (div_le_one hctH).mpr h
        have := Int.ceil_le.mpr (le_trans hle (by norm_num : (1 : ℚ) ≤ ((1 : ℤ) : ℚ)))
        omega
      omega
    · rw [if_neg h, totalPagesOf]
  · rw [hlen]
    omega
  · intro i hi
    rw [List.get_of_eq hcl ⟨i, hi⟩]
    simp [List.get_eq_getElem]

/-- Witness for C6 at the spec's example geometry (`imgH = 675`,
`contentH = 270`): the overlap paginator's page count agrees with the
slice-based count and at least one page is present. -/
theorem claim_C6_overlap_refinement_witness :
    (overlapPlacements 180 (imgHeightOf 800 3000 180) 270 15).length =
      slicePageCount 800 3000 180 270 ∧
    1 ≤ (overlapPlacements 180 (imgHeightOf 800 3000 180) 270 15).length := by
  have h := claim_C6_overlap_refinement 800 3000 180 270 15 (by norm_num)
    (by norm_num) (by norm_num) (by norm_num)
  exact ⟨h.1, h.2.2.1⟩

/-- Claim C2 counterexample: when the rasterizer call itself throws,
`advancedGeneratePDF` terminates with the overridden styles still in place —
there is no finally block, and the restore runs only after a successful
capture — so the final element styles differ from the pre-run snapshot
`overflow = "hidden"`, `height = "400px"`, `max-height` unset. -/
theorem claim_C2_counterexample :
    (advancedRun ⟨CaptureOutcome.throws, false⟩
        ⟨"hello", ⟨"hidden", "400px", ""⟩, some ⟨"auto", "600px"⟩⟩).outcome =
      some PdfError.captureThrew ∧
    (advancedRun ⟨CaptureOutcome.throws, false⟩
        ⟨"hello", ⟨"hidden", "400px", ""⟩, some ⟨"auto", "600px"⟩⟩).elemStyles ≠
      ⟨"hidden", "400px", ""⟩ ∧
    (advancedRun ⟨CaptureOutcome.throws, false⟩
        ⟨"hello", ⟨"hidden", "400px", ""⟩, some ⟨"auto", "600px"⟩⟩).parentStyles ≠
      some ⟨"auto", "600px"⟩ := by
  refine ⟨by decide, by decide, by decide⟩

/-- Claim C2 as amended: after any run of `advancedGeneratePDF` or
`simpleGeneratePDF` that does not terminate by an error thrown by the capture
call itself, the element's inline overflow, height and max-height values —
and, for the container-aware variant, the parent's overflow and height —
equal their exact pre-run values, including empty ones.  A throw from the
capture call leaves the overridden values in place. -/
theorem claim_C2_style_restoration_amended :
    (∀ env e, (advancedRun env e).outcome ≠ some PdfError.captureThrew →
      (advancedRun env e).elemStyles = e.styles ∧
      (advancedRun env e).parentStyles = e.parent) ∧
    (∀ env e, (simpleRun env e).outcome ≠ some PdfError.captureThrew →
      (simpleRun env e).elemStyles = e.styles) := by
  constructor
  · intro env e h
    cases ht : (jsTrim e.textContent).isEmpty with
    | true => simp [advancedRun, ht]
    | false =>
      cases hp : e.parent with
      | none => simp [advancedRun, ht, hp]
      | some p =>
        cases hc : env.capture with
        | throws => exact absurd (by simp [advancedRun, ht, hp, hc]) h
        | bitmap w h' =>
          by_cases hz : w = 0 ∨ h' = 0
          · simp [advancedRun, ht, hp, hc, hz]
          · cases hs : env.saveThrows <;> simp [advancedRun, ht, hp, hc, hz, hs]
  · intro env e h
    cases ht : (jsTrim e.textContent).isEmpty with
    | true => simp [simpleRun, ht]
    | false =>
      cases hc : env.capture with
      | throws => exact absurd (by simp [simpleRun, ht, hc]) h
      | bitmap w h' =>
        by_cases hz : w = 0 ∨ h' = 0
        · simp [simpleRun, ht, hc, hz]
        · cases hs : env.saveThrows <;> simp [simpleRun, ht, hc, hz, hs]

/-- Witness for the amended C2: a successful run over a real snapshot
restores exactly the original values. -/
theorem claim_C2_style_restoration_amended_witness :
    (advancedRun ⟨CaptureOutcome.bitmap 100 50, false⟩
        ⟨"hi", ⟨"hidden", "400px", ""⟩, some ⟨"auto", "600px"⟩⟩).outcome ≠
      some PdfError.captureThrew ∧
    (advancedRun ⟨CaptureOutcome.bitmap 100 50, false⟩
        ⟨"hi", ⟨"hidden", "400px", ""⟩, some ⟨"auto", "600px"⟩⟩).elemStyles =
      ⟨"hidden", "400px", ""⟩ :=
  ⟨by decide,
    (claim_C2_style_restoration_amended.1 ⟨CaptureOutcome.bitmap 100 50, false⟩
      ⟨"hi", ⟨"hidden", "400px", ""⟩, some ⟨"auto", "600px"⟩⟩ (by decide)).1⟩

/-- Claim C3 counterexample: a whitespace-only element (text content a single
space, which trims to empty) does not make `generatePDF` fail at all — its
content check runs only after the whole preparation step and tests the raw
`textContent.length > 0`, which a space satisfies — so with a benign
environment the run succeeds, refuting that every entry point fails
immediately with a no-content error. -/
theorem claim_C3_counterexample :
    (jsTrim " ").isEmpty = true ∧
    (generatePdfRun ⟨CaptureOutcome.bitmap 800 600, 1000, false⟩
        ⟨" ", true, 0⟩).outcome = none := by
  refine ⟨by decide, by decide⟩

/-- Claim C3 as amended: `advancedGeneratePDF` and `simpleGeneratePDF` reject
an element whose trimmed text content is empty immediately, before any style
mutation, frame yield, settle delay, or capture call; `generatePDF` instead
runs its whole preparation step (scroll, frame yields, font and image waits,
settle delay) first, rejects only exactly-empty text (length 0) with its
no-content error, and never raises a no-content error for whitespace-only
text. -/
theorem claim_C3_empty_content_amended :
    (∀ env e, (jsTrim e.textContent).isEmpty = true →
      advancedRun env e =
        ⟨some PdfError.noContent, e.styles, e.parent,
          [.progress "Preparing content..."]⟩ ∧
      simpleRun env e = ⟨some PdfError.noContent, e.styles, []⟩) ∧
    (∀ env e, e.textContent.length = 0 →
      (generatePdfRun env e).outcome = some PdfError.noContent ∧
      (generatePdfRun env e).events =
        Event.progress "Preparing content for PDF..." :: genPrepEvents e.images) ∧
    (∀ env e, 0 < e.textContent.length →
      (generatePdfRun env e).outcome ≠ some PdfError.noContent) := by
  refine ⟨?_, ?_, ?_⟩
  · intro env e ht
    exact ⟨by simp [advancedRun, ht], by simp [simpleRun, ht]⟩
  · intro env e h0
    constructor <;> simp [generatePdfRun, h0]
  · intro env e hpos
    have h0 : ¬ e.textContent.length = 0 := by omega
    cases hov : e.offsetParentPresent with
    | false => simp [generatePdfRun, h0, hov]
    | true =>
      cases hc : env.capture with
      | throws => simp [generatePdfRun, h0, hov, hc]
      | bitmap w h' =>
        by_cases hz : w = 0 ∨ h' = 0
        · simp [generatePdfRun, h0, hov, hc, hz]
        · by_cases hd : env.imgDataLen < 100
          · simp [generatePdfRun, h0, hov, hc, hz, hd]
          · cases hs : env.saveThrows <;>
              simp [generatePdfRun, h0, hov, hc, hz, hd, hs]

/-- Witness for the amended C3: a whitespace-only element is rejected by
`advancedGeneratePDF` with no preparation events, while `generatePDF` with
empty text fails only after its preparation trace. -/
theorem claim_C3_empty_content_amended_witness :
    advancedRun ⟨CaptureOutcome.throws, false⟩ ⟨"  ", ⟨"a", "b", "c"⟩, none⟩ =
      ⟨some PdfError.noContent, ⟨"a", "b", "c"⟩, none,
        [.progress "Preparing content..."]⟩ ∧
    (generatePdfRun ⟨CaptureOutcome.throws, 0, false⟩ ⟨"", true, 0⟩).outcome =
      some PdfError.noContent :=
  ⟨(claim_C3_empty_content_amended.1 ⟨CaptureOutcome.throws, false⟩
      ⟨"  ", ⟨"a", "b", "c"⟩, none⟩ (by decide)).1,
    (claim_C3_empty_content_amended.2.1 ⟨CaptureOutcome.throws, 0, false⟩
      ⟨"", true, 0⟩ (by decide)).1⟩

/-- Claim C7: when the rasterizer returns a zero-dimension bitmap, both
`advancedGeneratePDF` and `generatePDF` fail with the empty-canvas capture
error; the capture call is in the trace, no page-building event (drawSlice,
addPage, addImage) ever occurs, the original styles are restored in the
final state of `advancedGeneratePDF`, and this error is distinct from the
no-text-content error. -/
theorem claim_C7_zero_dimension_capture :
    (∀ env e p w h, e.parent = some p → (jsTrim e.textContent).isEmpty = false →
      env.capture = CaptureOutcome.bitmap w h → (w = 0 ∨ h = 0) →
      (advancedRun env e).outcome = some PdfError.emptyCanvas ∧
      (advancedRun env e).elemStyles = e.styles ∧
      (advancedRun env e).parentStyles = some p ∧
      Event.captureCall ∈ (advancedRun env e).events ∧
      (∀ ev ∈ (advancedRun env e).events, ev.isGeom = false) ∧
      PdfError.emptyCanvas ≠ PdfError.noContent) ∧
    (∀ env e w h, 0 < e.textContent.length → e.offsetParentPresent = true →
      env.capture = CaptureOutcome.bitmap w h → (w = 0 ∨ h = 0) →
      (generatePdfRun env e).outcome = some PdfError.emptyCanvas ∧
      Event.captureCall ∈ (generatePdfRun env e).events ∧
      (∀ ev ∈ (generatePdfRun env e).events, ev.isGeom = false)) := by
  constructor
  · intro env e p w h hp ht hc hz
    refine ⟨?_, ?_, ?_, ?_, ?_, by decide⟩ <;>
      simp [advancedRun, ht, hp, hc, hz, advMutationEvents, advRestoreEvents,
        Event.isGeom]
  · intro env e w h hlen hov hc hz
    have h0 : ¬ e.textContent.length = 0 := by omega
    by_cases him : e.images > 0 <;>
      refine ⟨?_, ?_, ?_⟩ <;>
        simp [generatePdfRun, h0, hov, hc, hz, genPrepEvents, him, Event.isGeom]

/-- Witness for C7: a concrete zero-height capture on an attached element
with text fails with the empty-canvas error and restores the styles. -/
theorem claim_C7_zero_dimension_capture_witness :
    (advancedRun ⟨CaptureOutcome.bitmap 800 0, false⟩
        ⟨"hi", ⟨"hidden", "", ""⟩, some ⟨"auto", ""⟩⟩).outcome =
      some PdfError.emptyCanvas ∧
    (advancedRun ⟨CaptureOutcome.bitmap 800 0, false⟩
        ⟨"hi", ⟨"hidden", "", ""⟩, some ⟨"auto", ""⟩⟩).elemStyles =
      ⟨"hidden", "", ""⟩ := by
  have h := claim_C7_zero_dimension_capture.1 ⟨CaptureOutcome.bitmap 800 0, false⟩
    ⟨"hi", ⟨"hidden", "", ""⟩, some ⟨"auto", ""⟩⟩ ⟨"auto", ""⟩ 800 0 rfl
    (by decide) rfl (by decide)
  exact ⟨h.1, h.2.1⟩

/-- Claim C8 counterexample: in `advancedGeneratePDF` the `pdf.save` call sits
inside the try block whose catch rethrows, and there is no blob fallback, so
a run that reaches the save step with a throwing save terminates with the
save error propagated to the caller — refuting that a primary-save failure is
never propagated. -/
theorem claim_C8_counterexample :
    (advancedRun ⟨CaptureOutcome.bitmap 100 50, true⟩
        ⟨"hi", ⟨"", "", ""⟩, some ⟨"", ""⟩⟩).outcome = some PdfError.saveFailed ∧
    some PdfError.saveFailed ≠ (none : Option PdfError) := by
  refine ⟨by decide, by decide⟩

/-- Claim C8 as amended: only `generatePDF` recovers a primary-save failure
locally — its save catch runs the blob-download fallback and the run still
returns successfully, so a save error never reaches its caller — while
`advancedGeneratePDF` and `simpleGeneratePDF` propagate a save error to the
caller like every other error class. -/
theorem claim_C8_save_fallback_amended :
    (∀ env e w h, 0 < e.textContent.length → e.offsetParentPresent = true →
      env.capture = CaptureOutcome.bitmap w h → ¬(w = 0 ∨ h = 0) →
      100 ≤ env.imgDataLen → env.saveThrows = true →
      (generatePdfRun env e).outcome = none ∧
      Event.blobFallback ∈ (generatePdfRun env e).events) ∧
    (∀ env e, (generatePdfRun env e).outcome ≠ some PdfError.saveFailed) ∧
    (∀ env e p w h, e.parent = some p → (jsTrim e.textContent).isEmpty = false →
      env.capture = CaptureOutcome.bitmap w h → ¬(w = 0 ∨ h = 0) →
      env.saveThrows = true →
      (advancedRun env e).outcome = some PdfError.saveFailed) ∧
    (∀ env e w h, (jsTrim e.textContent).isEmpty = false →
      env.capture = CaptureOutcome.bitmap w h → ¬(w = 0 ∨ h = 0) →
      env.saveThrows = true →
      (simpleRun env e).outcome = some PdfError.saveFailed) := by
  refine ⟨?_, ?_, ?_, ?_⟩
  · intro env e w h hlen hov hc hz hd hs
    have h0 : ¬ e.textContent.length = 0 := by omega
    have hd' : ¬ env.imgDataLen < 100 := by omega
    constructor <;> simp [generatePdfRun, h0, hov, hc, hz, hd', hs]
  · intro env e
    by_cases h0 : e.textContent.length = 0
    · simp [generatePdfRun, h0]
    · cases hov : e.offsetParentPresent with
      | false => simp [generatePdfRun, h0, hov]
      | true =>
        cases hc : env.capture with
        | throws => simp [generatePdfRun, h0, hov, hc]
        | bitmap w h' =>
          by_cases hz : w = 0 ∨ h' = 0
          · simp [generatePdfRun, h0, hov, hc, hz]
          · by_cases hd : env.imgDataLen < 100
            · simp [generatePdfRun, h0, hov, hc, hz, hd]
            · cases hs : env.saveThrows <;>
                simp [generatePdfRun, h0, hov, hc, hz, hd, hs]
  · intro env e p w h hp ht hc hz hs
    simp [advancedRun, ht, hp, hc, hz, hs]
  · intro env e w h ht hc hz hs
    simp [simpleRun, ht, hc, hz, hs]

/-- Witness for the amended C8: with a throwing save, `generatePDF` still
returns successfully and the blob fallback appears in its trace. -/
theorem claim_C8_save_fallback_amended_witness :
    (generatePdfRun ⟨CaptureOutcome.bitmap 800 600, 1000, true⟩
        ⟨"hi", true, 0⟩).outcome = none ∧
    Event.blobFallback ∈
      (generatePdfRun ⟨CaptureOutcome.bitmap 800 600, 1000, true⟩
        ⟨"hi", true, 0⟩).events :=
  claim_C8_save_fallback_amended.1 ⟨CaptureOutcome.bitmap 800 600, 1000, true⟩
    ⟨"hi", true, 0⟩ 800 600 (by decide) rfl rfl (by decide) (by decide) rfl

lemma advancedRun_geom_events (env : Env) (e : Elem) (p : ParentStyles)
    (w h : ℕ) (hp : e.parent = some p)
    (ht : (jsTrim e.textContent).isEmpty = false)
    (hc : env.capture = CaptureOutcome.bitmap w h) :
    (advancedRun env e).events.filter Event.isGeom =
      if w = 0 ∨ h = 0 then []
      else (advancedPageEvents w h).filter Event.isGeom := by
  by_cases hz : w = 0 ∨ h = 0
  · rw [if_pos hz]
    simp [advancedRun, ht, hp, hc, hz, advMutationEvents, advRestoreEvents,
      Event.isGeom]
  · rw [if_neg hz]
    cases hs : env.saveThrows <;>
      simp [advancedRun, ht, hp, hc, hz, hs, advMutationEvents, advRestoreEvents,
        List.filter_append, Event.isGeom]

/-- Claim C9: the pagination geometry of `advancedGeneratePDF` is
deterministic — any two runs whose captures return bitmaps of equal pixel
dimensions produce identical geometry traces (page breaks, slice row ranges,
image placements), whatever the elements' text, styles, parent styles, or
the save behaviour; no pagination quantity depends on anything besides the
raster dimensions and the fixed A4 page geometry. -/
theorem claim_C9_geometry_deterministic :
    ∀ env₁ e₁ env₂ e₂ w h,
      env₁.capture = CaptureOutcome.bitmap w h →
      env₂.capture = CaptureOutcome.bitmap w h →
      (jsTrim e₁.textContent).isEmpty = false →
      (jsTrim e₂.textContent).isEmpty = false →
      e₁.parent.isSome = true → e₂.parent.isSome = true →
      (advancedRun env₁ e₁).events.filter Event.isGeom =
        (advancedRun env₂ e₂).events.filter Event.isGeom := by
  intro env₁ e₁ env₂ e₂ w h hc₁ hc₂ ht₁ ht₂ hp₁ hp₂
  cases hq₁ : e₁.parent with
  | none => rw [hq₁] at hp₁ ; exact absurd hp₁ (by simp)
  | some p₁ =>
    cases hq₂ : e₂.parent with
    | none => rw [hq₂] at hp₂ ; exact absurd hp₂ (by simp)
    | some p₂ =>
      rw [advancedRun_geom_events env₁ e₁ p₁ w h hq₁ ht₁ hc₁,
        advancedRun_geom_events env₂ e₂ p₂ w h hq₂ ht₂ hc₂]

/-- Witness for C9: two runs with different text, styles, parent styles and
save behaviour but equal capture dimensions have identical geometry traces. -/
theorem claim_C9_geometry_deterministic_witness :
    (advancedRun ⟨CaptureOutcome.bitmap 100 50, false⟩
        ⟨"aa", ⟨"x", "y", "z"⟩, some ⟨"q", "r"⟩⟩).events.filter Event.isGeom =
      (advancedRun ⟨CaptureOutcome.bitmap 100 50, true⟩
        ⟨"b", ⟨"", "", ""⟩, some ⟨"", ""⟩⟩).events.filter Event.isGeom :=
  claim_C9_geometry_deterministic ⟨CaptureOutcome.bitmap 100 50, false⟩
    ⟨"aa", ⟨"x", "y", "z"⟩, some ⟨"q", "r"⟩⟩ ⟨CaptureOutcome.bitmap 100 50, true⟩
    ⟨"b", ⟨"", "", ""⟩, some ⟨"", ""⟩⟩ 100 50 rfl rfl (by decide) (by decide)
    rfl rfl

/-- Claim C10: `advancedGeneratePDF` requires an attached element — it
dereferences `element.parentElement!` to snapshot the parent's styles before
any style write, so a detached element (parent `none`) with non-empty text
fails with the null-parent TypeError before any style mutation or capture,
leaving the element's styles untouched; for attached elements both the
element's and the parent's overflow are overridden during the run. -/
theorem claim_C10_parent_dereference :
    (∀ env e, (jsTrim e.textContent).isEmpty = false → e.parent = none →
      (advancedRun env e).outcome = some PdfError.nullParent ∧
      (advancedRun env e).elemStyles = e.styles ∧
      (∀ ev ∈ (advancedRun env e).events, ev.isStyleWrite = false) ∧
      Event.captureCall ∉ (advancedRun env e).events) ∧
    (∀ env e p, (jsTrim e.textContent).isEmpty = false → e.parent = some p →
      Event.setElemStyle "overflow" "visible" ∈ (advancedRun env e).events ∧
      Event.setParentStyle "overflow" "visible" ∈ (advancedRun env e).events) := by
  constructor
  · intro env e ht hp
    refine ⟨?_, ?_, ?_, ?_⟩ <;>
      simp [advancedRun, ht, hp, Event.isStyleWrite]
  · intro env e p ht hp
    cases hc : env.capture with
    | throws =>
      constructor <;> simp [advancedRun, ht, hp, hc, advMutationEvents]
    | bitmap w h =>
      by_cases hz : w = 0 ∨ h = 0
      · constructor <;> simp [advancedRun, ht, hp, hc, hz, advMutationEvents]
      · cases hs : env.saveThrows <;>
          exact ⟨by simp [advancedRun, ht, hp, hc, hz, hs, advMutationEvents],
            by simp [advancedRun, ht, hp, hc, hz, hs, advMutationEvents]⟩

/-- Witness for C10: a detached element with text fails with the null-parent
error and an untouched trace, while an attached one gets its overflow
overridden. -/
theorem claim_C10_parent_dereference_witness :
    (advancedRun ⟨CaptureOutcome.bitmap 100 50, false⟩
        ⟨"hi", ⟨"hidden", "", ""⟩, none⟩).outcome = some PdfError.nullParent ∧
    Event.setElemStyle "overflow" "visible" ∈
      (advancedRun ⟨CaptureOutcome.bitmap 100 50, false⟩
        ⟨"hi", ⟨"hidden", "", ""⟩, some ⟨"auto", ""⟩⟩).events :=
  ⟨(claim_C10_parent_dereference.1 ⟨CaptureOutcome.bitmap 100 50, false⟩
      ⟨"hi", ⟨"hidden", "", ""⟩, none⟩ (by decide) rfl).1,
    (claim_C10_parent_dereference.2 ⟨CaptureOutcome.bitmap 100 50, false⟩
      ⟨"hi", ⟨"hidden", "", ""⟩, some ⟨"auto", ""⟩⟩ ⟨"auto", ""⟩ (by decide) rfl).1⟩

end MdToPdf
